import Mathlib

/-!
Verification of the process bootstrap in `selfdrive/ui/main.cc`.

The source is a linear Qt bootstrap:

  int main(int argc, char *argv[]) {
    setQtSurfaceFormat();
    if (Hardware::EON()) {
      QApplication::setAttribute(Qt::AA_ShareOpenGLContexts);
      QSslConfiguration ssl = QSslConfiguration::defaultConfiguration();
      ssl.setCaCertificates(QSslCertificate::fromPath("/usr/etc/tls/cert.pem"));
      QSslConfiguration::setDefaultConfiguration(ssl);
    }
    QApplication a(argc, argv);
    QTranslator translator;
    if (!translator.load("main_fr", "translations")) {
      qDebug() << "Failed to load translation!";
    }
    a.installTranslator(&translator);  // needs to be before setting main window
    MainWindow w;
    setMainWindow(&w);
    a.installEventFilter(&w);
    return a.exec();
  }

We embed this shallowly: the environment (hardware query result, platform
default TLS configuration, the certificate list parsed from the bundle path,
the translator-load outcome, the process arguments, the system locale) is a
record, and `mainBoot` maps the environment to the ordered list of observable
bootstrap events together with the resulting process-wide TLS configuration.
Certificates are a type parameter. Qt's `QSslCertificate::fromPath` returns
an empty list when the file is missing, unreadable or holds no parseable
certificate, so those failure modes all appear as `certsFromPath = []`.
-/

/-- A TLS configuration, mirroring the fields of `QSslConfiguration` that the
bootstrap can observe: the trusted-certificate list `caCertificates` plus the
remaining configuration fields (protocol version, peer-verification mode and
depth, cipher list, local certificate chain, private key), abstracted to
simple representative types. -/
structure SslConfiguration (Cert : Type) where
  caCertificates : List Cert
  protocol : Nat
  peerVerifyMode : Nat
  peerVerifyDepth : Nat
  ciphers : List Nat
  localCertificateChain : List Cert
  privateKey : Nat
  deriving DecidableEq

/-- `QSslConfiguration::setCaCertificates`: replace only the trusted-certificate
list, leaving every other field of the configuration unchanged. -/
def SslConfiguration.setCaCertificates {Cert : Type}
    (cfg : SslConfiguration Cert) (certs : List Cert) : SslConfiguration Cert :=
  { cfg with caCertificates := certs }

/-- The environment a run of `main` observes: the hardware capability query
`Hardware::EON()`, the platform default TLS configuration, the certificate
list `QSslCertificate::fromPath("/usr/etc/tls/cert.pem")` parses from the
bundle file (empty when the file is missing, unreadable or unparseable), the
process arguments, the system locale, whether `translator.load` succeeds, and
the value `a.exec()` returns. -/
structure Env (Cert : Type) where
  eon : Bool
  sslDefault : SslConfiguration Cert
  certsFromPath : List Cert
  args : List String
  locale : String
  translatorLoadOk : Bool
  execReturn : Int
  deriving DecidableEq

/-- The observable events of the bootstrap, in the order `main` performs them. -/
inductive Event (Cert : Type) where
  /-- `setQtSurfaceFormat()` -/
  | setSurfaceFormat
  /-- `QApplication::setAttribute(Qt::AA_ShareOpenGLContexts)` -/
  | setShareGLContexts
  /-- `QSslConfiguration::setDefaultConfiguration(cfg)` -/
  | setDefaultSslConfiguration (cfg : SslConfiguration Cert)
  /-- `QApplication a(argc, argv)` -/
  | constructApplication (args : List String)
  /-- `translator.load(fileName, directory)` returning `ok` -/
  | translatorLoadAttempt (fileName directory : String) (ok : Bool)
  /-- `qDebug() << msg` -/
  | emitDiagnostic (msg : String)
  /-- `a.installTranslator(&translator)`; `loaded` records whether the installed
  translator holds a successfully loaded catalogue -/
  | installTranslatorCall (loaded : Bool)
  /-- `MainWindow w` -/
  | constructMainWindow
  /-- `setMainWindow(&w)` -/
  | setMainWindowCall
  /-- `a.installEventFilter(&w)` -/
  | installEventFilterCall
  /-- `a.exec()` -/
  | execEventLoop
  deriving DecidableEq

namespace Event

/-- Is this event the GL context-sharing attribute write? -/
def isShareGL {Cert : Type} : Event Cert → Bool
  | .setShareGLContexts => true
  | _ => false

/-- Is this event an installation of a process-wide default TLS configuration? -/
def isSetDefaultSsl {Cert : Type} : Event Cert → Bool
  | .setDefaultSslConfiguration _ => true
  | _ => false

/-- Is this event the application-runtime construction? -/
def isConstructApp {Cert : Type} : Event Cert → Bool
  | .constructApplication _ => true
  | _ => false

/-- Is this event a translation-catalogue load attempt? -/
def isLoadAttempt {Cert : Type} : Event Cert → Bool
  | .translatorLoadAttempt _ _ _ => true
  | _ => false

/-- Is this event a diagnostic emission? -/
def isDiagnostic {Cert : Type} : Event Cert → Bool
  | .emitDiagnostic _ => true
  | _ => false

/-- Is this event the translator installation? -/
def isInstallTranslator {Cert : Type} : Event Cert → Bool
  | .installTranslatorCall _ => true
  | _ => false

/-- Is this event the main-window construction? -/
def isConstructWindow {Cert : Type} : Event Cert → Bool
  | .constructMainWindow => true
  | _ => false

/-- Is this event the registration of the current main window? -/
def isSetMainWindow {Cert : Type} : Event Cert → Bool
  | .setMainWindowCall => true
  | _ => false

/-- Is this event the event-filter installation? -/
def isInstallEventFilter {Cert : Type} : Event Cert → Bool
  | .installEventFilterCall => true
  | _ => false

/-- Is this event the entry into the blocking event loop? -/
def isExecLoop {Cert : Type} : Event Cert → Bool
  | .execEventLoop => true
  | _ => false

end Event

/-- The events of the `if (Hardware::EON())` block: on the target hardware it
sets the GL context-sharing attribute and installs a copy of the platform
default TLS configuration whose trusted-certificate list is replaced by the
parsed contents of the bundle file; off the target hardware it does nothing. -/
def eonStage {Cert : Type} (env : Env Cert) : List (Event Cert) :=
  if env.eon then
    [Event.setShareGLContexts,
     Event.setDefaultSslConfiguration
       (env.sslDefault.setCaCertificates env.certsFromPath)]
  else []

/-- The events of the translator block: the load attempt with the fixed
catalogue identifier and search-directory hint, the diagnostic on failure,
and the unconditional installation of the translator object. -/
def translatorStage {Cert : Type} (env : Env Cert) : List (Event Cert) :=
  [Event.translatorLoadAttempt "main_fr" "translations" env.translatorLoadOk]
  ++ (if env.translatorLoadOk then []
      else [Event.emitDiagnostic "Failed to load translation!"])
  ++ [Event.installTranslatorCall env.translatorLoadOk]

/-- The ordered event trace of one run of `main`, stage by stage in source
order. -/
def mainTrace {Cert : Type} (env : Env Cert) : List (Event Cert) :=
  [Event.setSurfaceFormat]
  ++ eonStage env
  ++ [Event.constructApplication env.args]
  ++ translatorStage env
  ++ [Event.constructMainWindow,
      Event.setMainWindowCall,
      Event.installEventFilterCall,
      Event.execEventLoop]

/-- The process-wide default TLS configuration after the conditional stage: on
the target hardware it is the platform default with its trusted-certificate
list replaced by the parsed bundle contents, otherwise the untouched platform
default. -/
def finalSslConfig {Cert : Type} (env : Env Cert) : SslConfiguration Cert :=
  if env.eon then env.sslDefault.setCaCertificates env.certsFromPath
  else env.sslDefault

/-- A concrete platform default TLS configuration used by the witnesses. -/
def samplePlatformDefault : SslConfiguration Nat :=
  { caCertificates := [7]
    protocol := 2
    peerVerifyMode := 1
    peerVerifyDepth := 0
    ciphers := [4, 5]
    localCertificateChain := [9]
    privateKey := 3 }

/-- A run on the target hardware with three parseable certificates in the
bundle file and a successful translation load. -/
def sampleEnvEon : Env Nat :=
  { eon := true
    sslDefault := samplePlatformDefault
    certsFromPath := [1, 2, 3]
    args := ["ui"]
    locale := "en_US"
    translatorLoadOk := true
    execReturn := 0 }

/-- A run on the target hardware whose certificate bundle yields no parseable
certificate (missing, unreadable or unparseable file). -/
def sampleEnvEonNoCerts : Env Nat :=
  { eon := true
    sslDefault := samplePlatformDefault
    certsFromPath := []
    args := ["ui"]
    locale := "en_US"
    translatorLoadOk := true
    execReturn := 0 }

/-- A run off the target hardware. -/
def sampleEnvNonEon : Env Nat :=
  { eon := false
    sslDefault := samplePlatformDefault
    certsFromPath := [1, 2, 3]
    args := []
    locale := "en_US"
    translatorLoadOk := true
    execReturn := 0 }

/-- A run whose translation-catalogue load fails. -/
def sampleEnvLoadFail : Env Nat :=
  { eon := false
    sslDefault := samplePlatformDefault
    certsFromPath := []
    args := []
    locale := "fr_FR"
    translatorLoadOk := false
    execReturn := 0 }

/-! ## Claims -/

/-- C1: If the platform capability check is true and the certificate bundle
file contains at least one parseable certificate, the installed
trusted-certificate set equals, as an order-independent set, the parsed
contents of that file. -/
theorem C1_trust_store_exact {Cert : Type} (env : Env Cert)
    (hEon : env.eon = true) (_hSome : env.certsFromPath ≠ []) :
    ∀ c : Cert, c ∈ (finalSslConfig env).caCertificates ↔ c ∈ env.certsFromPath := by
  intro c
  simp [finalSslConfig, hEon, SslConfiguration.setCaCertificates]

/-- Witness for C1 at a concrete target-hardware run with three certificates. -/
theorem C1_trust_store_exact_witness :
    sampleEnvEon.eon = true ∧ sampleEnvEon.certsFromPath ≠ [] ∧
    ∀ c : Nat, c ∈ (finalSslConfig sampleEnvEon).caCertificates ↔
      c ∈ sampleEnvEon.certsFromPath :=
  ⟨rfl, by decide, C1_trust_store_exact sampleEnvEon rfl (by decide)⟩

/-- C2: Off the target hardware the bootstrap never sets the GL
context-sharing attribute and never installs a default TLS configuration, and
the process-wide default TLS configuration after the conditional stage equals
the platform default from before it. -/
theorem C2_non_target_frame {Cert : Type} (env : Env Cert)
    (hEon : env.eon = false) :
    finalSslConfig env = env.sslDefault ∧
    Event.setShareGLContexts ∉ mainTrace env ∧
    (mainTrace env).filter Event.isSetDefaultSsl = [] := by
  refine ⟨by simp [finalSslConfig, hEon], ?_, ?_⟩
  · cases hT : env.translatorLoadOk <;>
      simp [mainTrace, eonStage, translatorStage, hEon, hT]
  · cases hT : env.translatorLoadOk <;>
      simp [mainTrace, eonStage, translatorStage, hEon, hT, Event.isSetDefaultSsl]

/-- Witness for C2 at a concrete non-target run. -/
theorem C2_non_target_frame_witness :
    sampleEnvNonEon.eon = false ∧
    (finalSslConfig sampleEnvNonEon = sampleEnvNonEon.sslDefault ∧
     Event.setShareGLContexts ∉ mainTrace sampleEnvNonEon ∧
     (mainTrace sampleEnvNonEon).filter Event.isSetDefaultSsl = []) :=
  ⟨rfl, C2_non_target_frame sampleEnvNonEon rfl⟩

/-- C3: On the target hardware, when the certificate bundle file is missing,
unreadable or yields no parseable certificate (so the parse result is the
empty list), the conditional stage still runs to completion, it emits no
diagnostic, and the installed trusted-certificate set is empty. -/
theorem C3_empty_bundle_silent {Cert : Type} (env : Env Cert)
    (hEon : env.eon = true) (hNone : env.certsFromPath = []) :
    (finalSslConfig env).caCertificates = [] ∧
    (eonStage env).filter Event.isDiagnostic = [] ∧
    Event.setDefaultSslConfiguration
      (env.sslDefault.setCaCertificates env.certsFromPath) ∈ mainTrace env := by
  refine ⟨?_, ?_, ?_⟩
  · simp [finalSslConfig, hEon, hNone, SslConfiguration.setCaCertificates]
  · simp [eonStage, hEon, Event.isDiagnostic]
  · simp [mainTrace, eonStage, hEon]

/-- Witness for C3 at a concrete target-hardware run with an empty parse
result. -/
theorem C3_empty_bundle_silent_witness :
    sampleEnvEonNoCerts.eon = true ∧ sampleEnvEonNoCerts.certsFromPath = [] ∧
    ((finalSslConfig sampleEnvEonNoCerts).caCertificates = [] ∧
     (eonStage sampleEnvEonNoCerts).filter Event.isDiagnostic = [] ∧
     Event.setDefaultSslConfiguration
       (sampleEnvEonNoCerts.sslDefault.setCaCertificates
         sampleEnvEonNoCerts.certsFromPath) ∈ mainTrace sampleEnvEonNoCerts) :=
  ⟨rfl, rfl, C3_empty_bundle_silent sampleEnvEonNoCerts rfl rfl⟩

/-- C9: On the target hardware the newly installed TLS configuration differs
from the platform default only in its trusted-certificate list: every other
field equals the corresponding field of the platform default, and the
trusted-certificate list is the parsed bundle contents. -/
theorem C9_only_ca_certificates_change {Cert : Type} (env : Env Cert)
    (hEon : env.eon = true) :
    (finalSslConfig env).protocol = env.sslDefault.protocol ∧
    (finalSslConfig env).peerVerifyMode = env.sslDefault.peerVerifyMode ∧
    (finalSslConfig env).peerVerifyDepth = env.sslDefault.peerVerifyDepth ∧
    (finalSslConfig env).ciphers = env.sslDefault.ciphers ∧
    (finalSslConfig env).localCertificateChain = env.sslDefault.localCertificateChain ∧
    (finalSslConfig env).privateKey = env.sslDefault.privateKey ∧
    (finalSslConfig env).caCertificates = env.certsFromPath := by
  simp [finalSslConfig, hEon, SslConfiguration.setCaCertificates]

/-- Witness for C9 at a concrete target-hardware run. -/
theorem C9_only_ca_certificates_change_witness :
    sampleEnvEon.eon = true ∧
    ((finalSslConfig sampleEnvEon).protocol = sampleEnvEon.sslDefault.protocol ∧
     (finalSslConfig sampleEnvEon).peerVerifyMode = sampleEnvEon.sslDefault.peerVerifyMode ∧
     (finalSslConfig sampleEnvEon).peerVerifyDepth = sampleEnvEon.sslDefault.peerVerifyDepth ∧
     (finalSslConfig sampleEnvEon).ciphers = sampleEnvEon.sslDefault.ciphers ∧
     (finalSslConfig sampleEnvEon).localCertificateChain =
       sampleEnvEon.sslDefault.localCertificateChain ∧
     (finalSslConfig sampleEnvEon).privateKey = sampleEnvEon.sslDefault.privateKey ∧
     (finalSslConfig sampleEnvEon).caCertificates = sampleEnvEon.certsFromPath) :=
  ⟨rfl, C9_only_ca_certificates_change sampleEnvEon rfl⟩

/-- C5: On the target hardware the GL context-sharing attribute is set
strictly before the application runtime object is constructed: its position in
the trace is strictly smaller, and both events occur. -/
theorem C5_share_gl_before_app {Cert : Type} (env : Env Cert)
    (hEon : env.eon = true) :
    (mainTrace env).findIdx Event.isShareGL
      < (mainTrace env).findIdx Event.isConstructApp ∧
    Event.setShareGLContexts ∈ mainTrace env ∧
    Event.constructApplication env.args ∈ mainTrace env := by
  refine ⟨?_, ?_, ?_⟩
  · simp [mainTrace, eonStage, hEon, List.findIdx_cons,
      Event.isShareGL, Event.isConstructApp]
  · simp [mainTrace, eonStage, hEon]
  · simp [mainTrace]

/-- Witness for C5 at a concrete target-hardware run. -/
theorem C5_share_gl_before_app_witness :
    sampleEnvEon.eon = true ∧
    ((mainTrace sampleEnvEon).findIdx Event.isShareGL
       < (mainTrace sampleEnvEon).findIdx Event.isConstructApp ∧
     Event.setShareGLContexts ∈ mainTrace sampleEnvEon ∧
     Event.constructApplication sampleEnvEon.args ∈ mainTrace sampleEnvEon) :=
  ⟨rfl, C5_share_gl_before_app sampleEnvEon rfl⟩

/-- C7: In every execution the translator installation happens strictly
before the main window is constructed: its position in the trace is strictly
smaller, and both events occur. -/
theorem C7_install_translator_before_window {Cert : Type} (env : Env Cert) :
    (mainTrace env).findIdx Event.isInstallTranslator
      < (mainTrace env).findIdx Event.isConstructWindow ∧
    Event.installTranslatorCall env.translatorLoadOk ∈ mainTrace env ∧
    Event.constructMainWindow ∈ mainTrace env := by
  refine ⟨?_, ?_, ?_⟩
  · cases hE : env.eon <;> cases hT : env.translatorLoadOk <;>
      simp [mainTrace, eonStage, translatorStage, hE, hT, List.findIdx_cons,
        Event.isInstallTranslator, Event.isConstructWindow]
  · simp [mainTrace, translatorStage]
  · simp [mainTrace]

/-- C8: In every execution the main window is registered as the current main
window and installed as an event filter strictly before the blocking event
loop is entered: both positions in the trace are strictly smaller, and all
three events occur. -/
theorem C8_register_before_event_loop {Cert : Type} (env : Env Cert) :
    (mainTrace env).findIdx Event.isSetMainWindow
      < (mainTrace env).findIdx Event.isExecLoop ∧
    (mainTrace env).findIdx Event.isInstallEventFilter
      < (mainTrace env).findIdx Event.isExecLoop ∧
    Event.setMainWindowCall ∈ mainTrace env ∧
    Event.installEventFilterCall ∈ mainTrace env ∧
    Event.execEventLoop ∈ mainTrace env := by
  refine ⟨?_, ?_, ?_, ?_, ?_⟩
  · cases hE : env.eon <;> cases hT : env.translatorLoadOk <;>
      simp [mainTrace, eonStage, translatorStage, hE, hT, List.findIdx_cons,
        Event.isSetMainWindow, Event.isExecLoop]
  · cases hE : env.eon <;> cases hT : env.translatorLoadOk <;>
      simp [mainTrace, eonStage, translatorStage, hE, hT, List.findIdx_cons,
        Event.isInstallEventFilter, Event.isExecLoop]
  · simp [mainTrace]
  · simp [mainTrace]
  · simp [mainTrace]

/-- C6: In every execution in which the translation-catalogue load fails, the
diagnostic message is emitted and the bootstrap still proceeds to construct
the main window, register it, install it as an event filter, and enter the
event loop, with the diagnostic emitted before the window is constructed. -/
theorem C6_load_failure_recovered {Cert : Type} (env : Env Cert)
    (hFail : env.translatorLoadOk = false) :
    Event.emitDiagnostic "Failed to load translation!" ∈ mainTrace env ∧
    Event.constructMainWindow ∈ mainTrace env ∧
    Event.setMainWindowCall ∈ mainTrace env ∧
    Event.installEventFilterCall ∈ mainTrace env ∧
    Event.execEventLoop ∈ mainTrace env ∧
    (mainTrace env).findIdx Event.isDiagnostic
      < (mainTrace env).findIdx Event.isConstructWindow := by
  refine ⟨?_, by simp [mainTrace], by simp [mainTrace], by simp [mainTrace],
    by simp [mainTrace], ?_⟩
  · simp [mainTrace, translatorStage, hFail]
  · cases hE : env.eon <;>
      simp [mainTrace, eonStage, translatorStage, hE, hFail, List.findIdx_cons,
        Event.isDiagnostic, Event.isConstructWindow]

/-- Witness for C6 at a concrete run whose translation load fails. -/
theorem C6_load_failure_recovered_witness :
    sampleEnvLoadFail.translatorLoadOk = false ∧
    (Event.emitDiagnostic "Failed to load translation!" ∈ mainTrace sampleEnvLoadFail ∧
     Event.constructMainWindow ∈ mainTrace sampleEnvLoadFail ∧
     Event.setMainWindowCall ∈ mainTrace sampleEnvLoadFail ∧
     Event.installEventFilterCall ∈ mainTrace sampleEnvLoadFail ∧
     Event.execEventLoop ∈ mainTrace sampleEnvLoadFail ∧
     (mainTrace sampleEnvLoadFail).findIdx Event.isDiagnostic
       < (mainTrace sampleEnvLoadFail).findIdx Event.isConstructWindow) :=
  ⟨rfl, C6_load_failure_recovered sampleEnvLoadFail rfl⟩

/-- C10: In every execution — whatever the process arguments, the locale and
the load outcome — the one translation-catalogue load attempt uses the fixed
catalogue identifier "main_fr" and the fixed search-directory hint
"translations". -/
theorem C10_fixed_catalogue_identifier {Cert : Type} (env : Env Cert) :
    (mainTrace env).filter Event.isLoadAttempt
      = [Event.translatorLoadAttempt "main_fr" "translations"
          env.translatorLoadOk] := by
  cases hE : env.eon <;> cases hT : env.translatorLoadOk <;>
    simp [mainTrace, eonStage, translatorStage, hE, hT, Event.isLoadAttempt]

/-- C4 as stated is false of the code: here is a run whose translation load
fails and in which the translator object is nevertheless installed into the
application runtime (`a.installTranslator(&translator)` is unconditional). -/
theorem C4_counterexample_install_on_failure :
    sampleEnvLoadFail.translatorLoadOk = false ∧
    Event.installTranslatorCall false ∈ mainTrace sampleEnvLoadFail := by
  exact ⟨rfl, by decide⟩

/-- C4 amended: in every execution the translator object is installed into
the application runtime exactly once, regardless of the load outcome; the
installed translator holds a loaded catalogue exactly when the load
succeeded, so after a failed load the installed translator is empty and the
default (untranslated) text remains active. -/
theorem C4_translator_always_installed {Cert : Type} (env : Env Cert) :
    (mainTrace env).filter Event.isInstallTranslator
      = [Event.installTranslatorCall env.translatorLoadOk] := by
  cases hE : env.eon <;> cases hT : env.translatorLoadOk <;>
    simp [mainTrace, eonStage, translatorStage, hE, hT, Event.isInstallTranslator]
